import Mathlib

/-!
Shallow embedding of src/tc_rerun_build.py, a TeamCity build retrigger
script.  The embedding models Python values by the inductive `Val`,
HTTP traffic by an oracle `env : Nat -> Resp` indexed by the number of
requests already issued, and each function of the source by a Lean
definition of the same name.  Instrumentation fields (request traces,
sleep counters, call counters) record the observable effects that the
claims quantify over.
-/

namespace TCRerun

/-- Python values occurring in the script: None, booleans, strings,
dicts (insertion-ordered association lists, keys unique at use sites)
and lists. -/
inductive Val where
  | none : Val
  | bool : Bool → Val
  | str : String → Val
  | dict : List (String × Val) → Val
  | list : List Val → Val

/-- Python truthiness for the values modeled by `Val`. -/
def pyTruthy : Val → Bool
  | .none => false
  | .bool b => b
  | .str s => !(s.isEmpty)
  | .dict d => !(d.isEmpty)
  | .list l => !(l.isEmpty)

/-- Python `str()` of a value, as used by `format`.  The script only
ever formats strings, None and booleans; the repr of containers is
never reached by any call modeled here. -/
def pyFormat : Val → String
  | .none => "None"
  | .bool b => if b then "True" else "False"
  | .str s => s
  | .dict _ => "dict"
  | .list _ => "list"

/-- First-match association-list lookup, modeling Python dict lookup
(keys are unique at every use site of the script). -/
def vLookup : List (String × Val) → String → Option Val
  | [], _ => Option.none
  | (k, v) :: rest, key => if k = key then some v else vLookup rest key

/-- Python `v.get(key, dflt)`: dict lookup with a default; calling
`.get` on a non-dict raises AttributeError. -/
def vgetD (v : Val) (key : String) (dflt : Val) : Except String Val :=
  match v with
  | .dict d => .ok ((vLookup d key).getD dflt)
  | _ => .error "AttributeError: get"

/-- Python `v.get(key)` with the implicit `None` default. -/
def vget (v : Val) (key : String) : Except String Val :=
  vgetD v key Val.none

/-- Python subscript `v[key]`: KeyError when the key is absent,
TypeError when the value is not a dict. -/
def vIndex (v : Val) (key : String) : Except String Val :=
  match v with
  | .dict d =>
    match vLookup d key with
    | some x => .ok x
    | Option.none => .error "KeyError"
  | _ => .error "TypeError: not subscriptable"

/-! ## URL construction (teamcity_rest_call_reuse_session, lines 228-232)

The source parses the server address and keeps only its host
(`urlparse(server).netloc`); the embedding takes that host directly as
the `server` argument. -/

/-- Credential-embedded URL, line 230 of the source. -/
def rest_url (user password server rest_uri : String) : String :=
  "https://" ++ user ++ ":" ++ password ++ "@" ++ server ++ "/" ++ rest_uri

/-- Token-only URL without credentials, line 231 of the source. -/
def rest_url_no_pass (server rest_uri : String) : String :=
  "https://" ++ server ++ "/" ++ rest_uri

/-! ## The httpAuth rewrite (initiate_rest_call, line 138)

`url.replace(a, b)` in Python replaces every non-overlapping
occurrence of `a`, scanning left to right.  The pattern here is the
10-character string "/httpAuth/". -/

/-- Left-to-right replacement of every occurrence of "/httpAuth/" by
"/", the semantics of the Python `str.replace` call on line 138: on a
match the whole pattern is consumed and scanning resumes after it. -/
def stripAuthSegs : List Char → List Char
  | '/' :: 'h' :: 't' :: 't' :: 'p' :: 'A' :: 'u' :: 't' :: 'h' :: '/' :: rest =>
    '/' :: stripAuthSegs rest
  | c :: rest => c :: stripAuthSegs rest
  | [] => []

/-- The URL actually handed to the transport: line 138 of the source. -/
def sentUrl (url : String) : String :=
  String.mk (stripAuthSegs url.data)

/-- Replacement of only the FIRST occurrence of "/httpAuth/".  This
definition follows the words of claim C10 ("its first httpAuth path
segment replaced"), not the source; it exists solely to be compared
with `sentUrl`. -/
def specReplaceFirstHttpAuth : List Char → List Char
  | '/' :: 'h' :: 't' :: 't' :: 'p' :: 'A' :: 'u' :: 't' :: 'h' :: '/' :: rest =>
    '/' :: rest
  | c :: rest => c :: specReplaceFirstHttpAuth rest
  | [] => []

/-- String form of the claim-C10-worded first-occurrence rewrite. -/
def specSentUrlFirst (url : String) : String :=
  String.mk (specReplaceFirstHttpAuth url.data)

/-! ## Transport oracle and the Content Negotiator -/

/-- One HTTP request as seen by the transport: the URL actually sent
and the TCSESSIONID cookie attached, if any. -/
structure Req where
  url : String
  cookie : Option String

/-- Environment answer for one request: either a response carrying the
status code, the already-decoded body and the TCSESSIONID cookie of
the response, or a transport-level exception (connection refused,
timeout, malformed URL).  Body decoding (json/xml/text) is folded into
the oracle: a decode failure is a response whose data is `Val.none`
with the real status code, exactly as initiate_rest_call produces. -/
inductive Resp where
  | ok : Nat → Val → Option String → Resp
  | exn : Resp

/-- Conversion of the threaded session id to the Python value the
function returns (a string, or None). -/
def valOfTok : Option String → Val
  | some t => .str t
  | Option.none => Val.none

/-- Result of one initiate_rest_call: decoded data, status code and
the session id (the input cookie if one was supplied, otherwise the
TCSESSIONID cookie of the response, lines 38-44 of make_rest_call). -/
structure InitOut where
  data : Val
  status : Nat
  sessionId : Option String

/-- initiate_rest_call (lines 117-190): rewrites the URL (line 138),
issues one request through the transport and returns the decoded data,
status and session id; `Option.none` in the second component models a
propagated transport exception. -/
def initiate_rest_call (env : Nat → Resp) (k : Nat) (url : String)
    (tok : Option String) : Req × Option InitOut :=
  let req : Req := ⟨sentUrl url, tok⟩
  match env k with
  | .exn => (req, Option.none)
  | .ok s d c =>
    (req, some ⟨d, s, match tok with | some t => some t | Option.none => c⟩)

/-! ## Session-Reuse Client (teamcity_rest_call_reuse_session, lines 193-311) -/

/-- Outcome of the per-call body (lines 243-277): either an exception
was caught (carrying the current rest_data and tcSessionId variables
at that point, plus the requests made), or a response is available for
the status-code policy. -/
inductive BodyOut where
  | exn : Val → Val → List Req → BodyOut
  | ok : Val → Option String → Nat → List Req → Nat → BodyOut

/-- The request-issuing body of one call: token path with the one-shot
credential fallback on 401/403 (lines 243-267), or the credential path
(lines 268-277).  On an exception the variables rest_data (initialized
to "" on line 226) and tcSessionId keep their current values, which the
final `return` on line 311 then yields. -/
def callBody (env : Nat → Resp) (u p sv uri : String) (k : Nat)
    (tok : Option String) : BodyOut :=
  match tok with
  | some t =>
    match initiate_rest_call env k (rest_url_no_pass sv uri) (some t) with
    | (reqA, Option.none) => .exn (.str "") (.str t) [reqA]
    | (reqA, some oA) =>
      if oA.status = 401 ∨ oA.status = 403 then
        match initiate_rest_call env (k + 1) (rest_url u p sv uri) Option.none with
        | (reqB, Option.none) => .exn oA.data (valOfTok oA.sessionId) [reqA, reqB]
        | (reqB, some oB) => .ok oB.data oB.sessionId oB.status [reqA, reqB] (k + 2)
      else .ok oA.data oA.sessionId oA.status [reqA] (k + 1)
  | Option.none =>
    match initiate_rest_call env k (rest_url u p sv uri) Option.none with
    | (reqA, Option.none) => .exn (.str "") Val.none [reqA]
    | (reqA, some oA) => .ok oA.data oA.sessionId oA.status [reqA] (k + 1)

/-- Observable outcome of teamcity_rest_call_reuse_session: the two
returned values plus instrumentation (requests issued in order, sleeps
performed, and the number of logical attempts, i.e. invocations of the
function counting the initial one). -/
structure TCResult where
  data : Val
  token : Val
  reqs : List Req
  sleeps : Nat
  calls : Nat

/-- teamcity_rest_call_reuse_session (lines 193-311).  The status-code
policy of lines 279-305: transient codes 500/502/503/401 decrement the
counter, return (False, tcSessionId) when it is exhausted, otherwise
sleep and recurse; any other non-200 returns (False, False); 200 falls
through to the final return.  The counter is a Python int; every call
site of the script passes a positive value, so it is modeled by Nat
(for a non-positive counter both the source and the model make one
attempt and return failure). -/
def tcCall (env : Nat → Resp) (u p sv uri : String) (k : Nat)
    (tok : Option String) (retry_attempt : Nat) : TCResult :=
  match callBody env u p sv uri k tok with
  | .exn d t reqs => ⟨d, t, reqs, 0, 1⟩
  | .ok d tok2 s reqs k2 =>
    if s = 500 ∨ s = 502 ∨ s = 503 ∨ s = 401 then
      if retry_attempt - 1 ≤ 0 then ⟨.bool false, valOfTok tok2, reqs, 0, 1⟩
      else
        let r := tcCall env u p sv uri k2 tok2 (retry_attempt - 1)
        ⟨r.data, r.token, reqs ++ r.reqs, 1 + r.sleeps, 1 + r.calls⟩
    else if s = 200 then ⟨d, valOfTok tok2, reqs, 0, 1⟩
    else ⟨.bool false, .bool false, reqs, 0, 1⟩
termination_by retry_attempt
decreasing_by omega

/-! ## XML flattening (_etree_to_dict, lines 82-114) -/

/-- An ElementTree element: tag, attributes (ordered, keys unique),
text (None or a string; an empty string is falsy like None is) and the
list of child elements. -/
inductive XElem where
  | mk : String → List (String × String) → Option String → List XElem → XElem

/-- Tag of an element. -/
def XElem.tag : XElem → String
  | .mk t _ _ _ => t

/-- Attributes of an element. -/
def XElem.attrib : XElem → List (String × String)
  | .mk _ a _ _ => a

/-- Text of an element. -/
def XElem.text : XElem → Option String
  | .mk _ _ x _ => x

/-- Children of an element. -/
def XElem.children : XElem → List XElem
  | .mk _ _ _ c => c

theorem XElem.tag_mk (t : String) (a : List (String × String)) (x : Option String)
    (c : List XElem) : (XElem.mk t a x c).tag = t := rfl

theorem XElem.attrib_mk (t : String) (a : List (String × String)) (x : Option String)
    (c : List XElem) : (XElem.mk t a x c).attrib = a := rfl

theorem XElem.text_mk (t : String) (a : List (String × String)) (x : Option String)
    (c : List XElem) : (XElem.mk t a x c).text = x := rfl

theorem XElem.children_mk (t : String) (a : List (String × String)) (x : Option String)
    (c : List XElem) : (XElem.mk t a x c).children = c := rfl

/-- Grouping step of lines 95-98: fold the single-key child dicts into
a defaultdict(list), preserving first-occurrence key order and
appending repeated keys. -/
def addEntry (acc : List (String × List Val)) (k : String) (v : Val) :
    List (String × List Val) :=
  match acc with
  | [] => [(k, [v])]
  | (k2, vs) :: rest =>
    if k2 = k then (k2, vs ++ [v]) :: rest else (k2, vs) :: addEntry rest k v

/-- Fold a list of child dicts through `addEntry`, iterating the items
of each child dict (they are single-key dicts produced by the
recursive call, lines 96-98). -/
def groupChildren (acc : List (String × List Val)) : List Val → List (String × List Val)
  | [] => acc
  | .dict es :: rest => groupChildren (es.foldl (fun a kv => addEntry a kv.1 kv.2) acc) rest
  | _ :: rest => groupChildren acc rest

/-- The comprehension of lines 99-104: a singleton value stays bare, a
repeated key becomes the ordered list of its values. -/
def collapse (g : List (String × List Val)) : List (String × Val) :=
  g.map (fun kv => (kv.1, match kv.2 with | [v] => v | vs => Val.list vs))

/-- Python `dict.update` item step: overwrite an existing key in place
or append a new one. -/
def dictSet (d : List (String × Val)) (k : String) (v : Val) : List (String × Val) :=
  match d with
  | [] => [(k, v)]
  | (k2, v2) :: rest =>
    if k2 = k then (k2, v) :: rest else (k2, v2) :: dictSet rest k v

/-- Python `dict.update` over a sequence of pairs (line 106). -/
def dictUpdate (d : List (String × Val)) (kvs : List (String × Val)) :
    List (String × Val) :=
  kvs.foldl (fun acc kv => dictSet acc kv.1 kv.2) d

/-- Python `str.strip()` with no argument: remove leading and trailing
whitespace (modeled for the ASCII whitespace characters). -/
def pyStrip (s : String) : String :=
  String.mk (((s.data.dropWhile Char.isWhitespace).reverse.dropWhile
    Char.isWhitespace).reverse)

mutual

/-- _etree_to_dict (lines 82-114): the result is always the single-key
dict binding the tag of the element to its flattened payload. -/
def etree_to_dict : XElem → Val
  | e => Val.dict [(e.tag, etreeBody e)]

/-- Payload bound to the tag by _etree_to_dict: starts as {} when
attributes exist else None (line 92); replaced by the collapsed child
grouping when children exist (lines 94-104); attributes merged in by
update (lines 105-106); stripped text added under the sentinel key
only when children or attributes exist and the stripped text is
non-empty, otherwise the text replaces the value (lines 107-113). -/
def etreeBody : XElem → Val
  | .mk _tag attrib text children =>
    let payload0 : Val := if attrib.isEmpty then Val.none else .dict []
    let payload1 : Val :=
      if children.isEmpty then payload0
      else .dict (collapse (groupChildren [] (etreeChildDicts children)))
    let payload2 : Val :=
      if attrib.isEmpty then payload1
      else
        match payload1 with
        | .dict d => .dict (dictUpdate d (attrib.map (fun kv => (kv.1, Val.str kv.2))))
        | _ => payload1
    match text with
    | Option.none => payload2
    | some t =>
      if t.isEmpty then payload2
      else
        let txt := pyStrip t
        if !children.isEmpty ∨ !attrib.isEmpty then
          if txt.isEmpty then payload2
          else
            match payload2 with
            | .dict d => .dict (dictSet d "#text" (.str txt))
            | _ => payload2
        else .str txt

/-- Map of _etree_to_dict over the children (line 96). -/
def etreeChildDicts : List XElem → List Val
  | [] => []
  | c :: cs => etree_to_dict c :: etreeChildDicts cs

end

/-! ## Trigger payload serialization (trigger_build_with_changeID, lines 374-394) -/

/-- Python equality of a value against a string literal. -/
def valEqStr (v : Val) (s : String) : Bool :=
  match v with
  | .str t => t = s
  | _ => false

/-- The XML payload of lines 374-394: the joined build element with
branch attribute, buildType reference, optional queue bump, optional
comment, optional lastChanges block and the property list in mapping
order. -/
def build_id_xml (config_id premerge_changes tc_internal_change_id : Val)
    (properties : List (String × String)) (comment : Val)
    (bump_to_top : Bool) : String :=
  let pc := if valEqStr premerge_changes "<default>" then Val.str "" else premerge_changes
  let l1 : List String :=
    ["<build branchName=\"" ++ pyFormat pc ++ "\">",
     "  <buildType id=\"" ++ pyFormat config_id ++ "\"/>"]
  let l2 : List String :=
    if bump_to_top then ["  <triggeringOptions queueAtTop=\"true\" />"] else []
  let l3 : List String :=
    if pyTruthy comment then
      ["  <comment><text>" ++ pyFormat comment ++ "</text></comment>"]
    else []
  let l4 : List String :=
    if pyTruthy tc_internal_change_id then
      ["    <lastChanges>",
       "    <change id=\"" ++ pyFormat tc_internal_change_id ++ "\" personal=\"false\" />",
       "    </lastChanges>"]
    else []
  let l5 : List String :=
    ["  <properties>"] ++
    properties.map
      (fun pv => "    <property name=\"" ++ pv.1 ++ "\" value=\"" ++ pv.2 ++ "\"/>") ++
    ["  </properties>", "</build>"]
  String.intercalate "\n" (l1 ++ l2 ++ l3 ++ l4 ++ l5)

/-! ## Build Trigger validation loop (trigger_build_with_changeID, lines 400-430)

The REST responses of the up-to-two submissions come from an oracle
`resp : Nat -> Val` giving what teamcity_rest_call_reuse_session
returned as data on attempt number `current` (1-based). -/

/-- The while loop of lines 403-429.  `ret` is the running
return_value.  The result carries the returned value and the number of
submissions made.  Calling `.keys()` on a truthy non-dict raises, so
those paths produce an error. -/
def trigGo (resp : Nat → Val) (current : Nat) (ret : Val) :
    Except String (Val × Nat) :=
  if 2 < current then .ok (ret, current - 1)
  else
    let tb := resp current
    if pyTruthy tb then
      match tb with
      | .dict d =>
        match vLookup d "build" with
        | some (.dict b) =>
          if (vLookup b "href").isSome then .ok (tb, current)
          else trigGo resp (current + 1) tb
        | some _ => .error "AttributeError: keys"
        | Option.none => trigGo resp (current + 1) tb
      | _ => .error "AttributeError: keys"
    else trigGo resp (current + 1) ret
termination_by 3 - current
decreasing_by all_goals omega

/-- trigger_build_with_changeID, validation part: starts at attempt 1
with return_value = "" (lines 397-402, max_retry = 2). -/
def trigger_build_with_changeID (resp : Nat → Val) : Except String (Val × Nat) :=
  trigGo resp 1 (.str "")

/-! ## Retrigger Orchestrator (trigger_build_with_same_revision, lines 433-508)

The results of the successive get_build_details inspections come from
an oracle `inspect : Nat -> Val` (0-based inspection index, which the
loop keeps equal to current_attempt), and the trigger submissions from
a separate oracle as above. -/

/-- Comparison step of Python string `<` (lexicographic on code
points). -/
def listCharLt : List Char → List Char → Bool
  | [], [] => false
  | [], _ :: _ => true
  | _ :: _, [] => false
  | a :: as, b :: bs =>
    if a.toNat < b.toNat then true
    else if b.toNat < a.toNat then false
    else listCharLt as bs

/-- Python `<` on strings. -/
def strLt (a b : String) : Bool := listCharLt a.data b.data

/-- Python `max` over a non-empty string list: fold keeping the
current value on ties, exactly the pairwise `>` scan of max. -/
def pyMaxStr (x : String) (ys : List String) : String :=
  ys.foldl (fun a b => if strLt a b then b else a) x

/-- Coercion used by the max comparison: Python comparisons between a
non-string and a string raise TypeError. -/
def asStr : Val → Except String String
  | .str s => .ok s
  | _ => .error "TypeError: comparison"

/-- Conversion of a list of values to strings for the max comparison,
failing on the first non-string. -/
def asStrList : List Val → Except String (List String)
  | [] => .ok []
  | v :: vs => do
    let s ← asStr v
    let rest ← asStrList vs
    .ok (s :: rest)

/-- Python `max(change_ids)` for a non-empty list: a singleton is
returned without any comparison; otherwise every element must be a
string and the lexicographic maximum is taken. -/
def pyMaxOfIds : List Val → Except String Val
  | [] => .error "ValueError: max of empty"
  | [v] => .ok v
  | v :: vs => do
    let s0 ← asStr v
    let ss ← asStrList vs
    .ok (.str (pyMaxStr s0 ss))

/-- The comprehension of line 476: `x.get('id')` over the elements of
the change list.  Iterating a non-list (a dict yields its string keys,
on which `.get` then raises) is modeled as an error. -/
def getIds : List Val → Except String (List Val)
  | [] => .ok []
  | x :: xs => do
    let i ← vget x "id"
    let rest ← getIds xs
    .ok (i :: rest)

/-- Iteration source of line 476. -/
def iterIds : Val → Except String (List Val)
  | .list xs => getIds xs
  | _ => .error "TypeError: iteration"

/-- The per-inspection metadata extracted by lines 472-477. -/
structure Extracted where
  btid : Val
  branch : Val
  state : Val
  change_id : Val

/-- Lines 472-477: keep an already-truthy build_type_id, else read it
from the snapshot; read branch and state; collect the change ids from
lastChanges.change (defaults {} and []); select the max change id, or
None when the list is empty. -/
def extractSnap (btid0 output : Val) : Except String Extracted := do
  let btid ← if pyTruthy btid0 then Except.ok btid0 else vget output "buildTypeId"
  let branch ← vget output "branchName"
  let st ← vget output "state"
  let lastChanges ← vgetD output "lastChanges" (.dict [])
  let change ← vgetD lastChanges "change" (.list [])
  let ids ← iterIds change
  let change_id ← if 0 < ids.length then pyMaxOfIds ids else Except.ok Val.none
  Except.ok ⟨btid, branch, st, change_id⟩

/-- Outcome of the polling loop of lines 463-485. -/
inductive LoopRes where
  | invalid : LoopRes
  | err : String → LoopRes
  | done : Val → Val → Val → Val → LoopRes

/-- Loop outcome with the number of inspections and sleeps made. -/
structure LoopOut where
  res : LoopRes
  inspections : Nat
  sleeps : Nat

/-- The while-True loop of lines 463-485.  `n` is current_attempt; the
n-th inspection is `inspect n`.  A falsy snapshot aborts as invalid
(lines 478-480); after extraction current_attempt is incremented and
the loop repeats exactly when the state is "running" and the counter
is still below total (lines 481-485). -/
def orchLoop (inspect : Nat → Val) (total : Nat) (btid0 : Val) (n : Nat) : LoopOut :=
  let output := inspect n
  if pyTruthy output then
    match extractSnap btid0 output with
    | .error e => ⟨.err e, 1, 0⟩
    | .ok ex =>
      if valEqStr ex.state "running" = true ∧ n + 1 < total then
        let r := orchLoop inspect total ex.btid (n + 1)
        ⟨r.res, r.inspections + 1, r.sleeps + 1⟩
      else ⟨.done ex.btid ex.branch ex.state ex.change_id, 1, 0⟩
  else ⟨.invalid, 1, 0⟩
termination_by total - n
decreasing_by omega

/-- Caller-visible outcome of trigger_build_with_same_revision.  The
source returns the pair (False, tcSessionId) on its failure paths
(lines 480, 489, 495) but the bare webUrl value on success (line 508);
an uncaught exception is a third outcome. -/
inductive OrchResult where
  | failPair : OrchResult
  | url : Val → OrchResult
  | exn : String → OrchResult

/-- Orchestrator outcome plus instrumentation: inspections and poll
sleeps made, whether trigger_build_with_changeID was invoked, the
submissions it made, and the tc_internal_change_id value handed to it
(line 499). -/
structure OrchOut where
  result : OrchResult
  inspections : Nat
  pollSleeps : Nat
  triggered : Bool
  submissions : Nat
  resolvedChange : Option Val

/-- Lines 496-508: invoke the Build Trigger and subscript the result
as trigger_info['build']['webUrl'] (raising on an empty or buildless
result). -/
def runTrigger (trigResp : Nat → Val) (chid : Val) (insp slp : Nat) : OrchOut :=
  match trigger_build_with_changeID trigResp with
  | .error e => ⟨.exn e, insp, slp, true, 0, some chid⟩
  | .ok (ti, subs) =>
    match (do
        let b ← vIndex ti "build"
        vIndex b "webUrl" : Except String Val) with
    | .error e => ⟨.exn e, insp, slp, true, subs, some chid⟩
    | .ok u => ⟨.url u, insp, slp, true, subs, some chid⟩

/-- trigger_build_with_same_revision (lines 433-508): with a truthy
original build, force total_attempts to 1 unless only_if_finished,
poll, abort when still running with only_if_finished (lines 486-489);
with only a truthy build_type_id use empty branch and change id (lines
490-492); otherwise report insufficient input (lines 493-495); finally
trigger and return the webUrl of the result. -/
def trigger_build_with_same_revision (inspect trigResp : Nat → Val)
    (orig_build build_type_id : Val) (only_if_finished : Bool)
    (total_attempts : Nat) : OrchOut :=
  if pyTruthy orig_build then
    let total := if !only_if_finished then 1 else total_attempts
    match orchLoop inspect total build_type_id 0 with
    | ⟨.invalid, insp, slp⟩ => ⟨.failPair, insp, slp, false, 0, Option.none⟩
    | ⟨.err e, insp, slp⟩ => ⟨.exn e, insp, slp, false, 0, Option.none⟩
    | ⟨.done _btid _branch st chid, insp, slp⟩ =>
      if only_if_finished = true ∧ valEqStr st "running" = true then
        ⟨.failPair, insp, slp, false, 0, Option.none⟩
      else runTrigger trigResp chid insp slp
  else if pyTruthy build_type_id then
    runTrigger trigResp (.str "") 0 0
  else ⟨.failPair, 0, 0, false, 0, Option.none⟩

/-- A well-formed build snapshot as the json decoding of the
inspection endpoint yields it: buildTypeId, branchName, state and the
lastChanges.change list of id-carrying dicts. -/
def mkSnap (btid branch state : String) (ids : List String) : Val :=
  .dict [("buildTypeId", .str btid), ("branchName", .str branch),
         ("state", .str state),
         ("lastChanges",
          .dict [("change", .list (ids.map (fun i => .dict [("id", .str i)])))])]

/-! ## Helper predicates and lemmas for the Session-Reuse Client claims -/

/-- The i-th transport answer is a response with a transient status
code (500, 502, 503 or 401). -/
def TransientOk (env : Nat → Resp) (i : Nat) : Prop :=
  ∃ s d c, env i = .ok s d c ∧ (s = 500 ∨ s = 502 ∨ s = 503 ∨ s = 401)

/-- The i-th transport answer is a response with a 5xx transient
status code (no auth fallback involved). -/
def Busy5xx (env : Nat → Resp) (i : Nat) : Prop :=
  ∃ s d c, env i = .ok s d c ∧ (s = 500 ∨ s = 502 ∨ s = 503)

theorem callBody_transient (env : Nat → Resp) (u p sv uri : String) (k : Nat)
    (tok : Option String) (H : ∀ i, TransientOk env i) :
    ∃ d tok2 s reqs k2, callBody env u p sv uri k tok = .ok d tok2 s reqs k2 ∧
      (s = 500 ∨ s = 502 ∨ s = 503 ∨ s = 401) := by
  obtain ⟨s, d, c, he, hs⟩ := H k
  match tok with
  | Option.none =>
    have hcb : callBody env u p sv uri k Option.none =
        .ok d c s [⟨sentUrl (rest_url u p sv uri), Option.none⟩] (k + 1) := by
      simp [callBody, initiate_rest_call, he]
    exact ⟨d, c, s, _, k + 1, hcb, hs⟩
  | some t =>
    by_cases hc : s = 401 ∨ s = 403
    · obtain ⟨s2, d2, c2, he2, hs2⟩ := H (k + 1)
      have hcb : callBody env u p sv uri k (some t) =
          .ok d2 c2 s2 [⟨sentUrl (rest_url_no_pass sv uri), some t⟩,
                        ⟨sentUrl (rest_url u p sv uri), Option.none⟩] (k + 2) := by
        simp [callBody, initiate_rest_call, he, he2, hc]
      exact ⟨d2, c2, s2, _, k + 2, hcb, hs2⟩
    · have hcb : callBody env u p sv uri k (some t) =
          .ok d (some t) s [⟨sentUrl (rest_url_no_pass sv uri), some t⟩] (k + 1) := by
        simp [callBody, initiate_rest_call, he, hc]
      exact ⟨d, some t, s, _, k + 1, hcb, hs⟩

theorem tcCall_all_transient (env : Nat → Resp) (u p sv uri : String)
    (H : ∀ i, TransientOk env i) :
    ∀ R, 1 ≤ R → ∀ k tok, ∃ tok2 reqs,
      tcCall env u p sv uri k tok R = ⟨Val.bool false, tok2, reqs, R - 1, R⟩ := by
  intro R
  induction R using Nat.strong_induction_on with
  | _ R ih =>
    intro hR k tok
    obtain ⟨d, tok2, s, reqs, k2, hb, hs⟩ := callBody_transient env u p sv uri k tok H
    rw [tcCall, hb]
    dsimp only
    rw [if_pos hs]
    split
    · refine ⟨valOfTok tok2, reqs, ?_⟩
      simp [TCResult.mk.injEq]
      all_goals omega
    · rename_i h1
      obtain ⟨tok3, reqs3, hrec⟩ := ih (R - 1) (by omega) (by omega) k2 tok2
      refine ⟨tok3, reqs ++ reqs3, ?_⟩
      simp [hrec, TCResult.mk.injEq]
      all_goals omega

theorem tcCall_busy_then_200 (env : Nat → Resp) (u p sv uri : String) :
    ∀ m k R t d c, m + 1 ≤ R →
      (∀ i, i < m → Busy5xx env (k + i)) →
      env (k + m) = .ok 200 d c →
      ∃ reqs, tcCall env u p sv uri k (some t) R = ⟨d, Val.str t, reqs, m, m + 1⟩ := by
  intro m
  induction m with
  | zero =>
    intro k R t d c hR _ h200
    simp only [Nat.add_zero] at h200
    have hcb : callBody env u p sv uri k (some t) =
        .ok d (some t) 200 [⟨sentUrl (rest_url_no_pass sv uri), some t⟩] (k + 1) := by
      simp [callBody, initiate_rest_call, h200]
    refine ⟨[⟨sentUrl (rest_url_no_pass sv uri), some t⟩], ?_⟩
    rw [tcCall, hcb]
    simp [valOfTok]
  | succ m ih =>
    intro k R t d c hR hbusy h200
    obtain ⟨s, d0, c0, he, hs⟩ := hbusy 0 (by omega)
    simp only [Nat.add_zero] at he
    have hnot : ¬(s = 401 ∨ s = 403) := by rcases hs with h | h | h <;> omega
    have htr : s = 500 ∨ s = 502 ∨ s = 503 ∨ s = 401 := by tauto
    have hcb : callBody env u p sv uri k (some t) =
        .ok d0 (some t) s [⟨sentUrl (rest_url_no_pass sv uri), some t⟩] (k + 1) := by
      simp [callBody, initiate_rest_call, he, hnot]
    have hshift : ∀ i, i < m → Busy5xx env (k + 1 + i) := by
      intro i hi
      have := hbusy (i + 1) (by omega)
      simpa [Nat.add_assoc, Nat.add_comm, Nat.add_left_comm] using this
    have h200s : env (k + 1 + m) = .ok 200 d c := by
      simpa [Nat.add_assoc, Nat.add_comm, Nat.add_left_comm] using h200
    obtain ⟨reqs3, hrec⟩ := ih (k + 1) (R - 1) t d c (by omega) hshift h200s
    rw [tcCall, hcb]
    dsimp only
    rw [if_pos htr]
    split
    · rename_i h1
      exact absurd h1 (by omega)
    · refine ⟨⟨sentUrl (rest_url_no_pass sv uri), some t⟩ :: reqs3, ?_⟩
      simp [hrec, TCResult.mk.injEq]
      all_goals omega

/-- C1: with token auth and every response carrying a transient status
code (500, 502, 503 or 401), the Session-Reuse Client makes exactly
retry_attempt logical attempts, sleeping once before each attempt
after the first (retry_attempt - 1 sleeps in total), and returns the
failure pair (False, token); if instead the server is busy for the
first m attempts and attempt m + 1 answers 200, the client returns
that response's decoded data together with the session token. -/
theorem c1_retry_policy :
    (∀ (env : Nat → Resp) (u p sv uri t : String) (R : Nat), 1 ≤ R →
      (∀ i, TransientOk env i) →
      (tcCall env u p sv uri 0 (some t) R).data = Val.bool false ∧
      (tcCall env u p sv uri 0 (some t) R).sleeps = R - 1 ∧
      (tcCall env u p sv uri 0 (some t) R).calls = R) ∧
    (∀ (env : Nat → Resp) (u p sv uri t : String) (R m : Nat) (d : Val)
        (c : Option String), m + 1 ≤ R →
      (∀ i, i < m → Busy5xx env i) →
      env m = .ok 200 d c →
      (tcCall env u p sv uri 0 (some t) R).data = d ∧
      (tcCall env u p sv uri 0 (some t) R).token = Val.str t ∧
      (tcCall env u p sv uri 0 (some t) R).sleeps = m ∧
      (tcCall env u p sv uri 0 (some t) R).calls = m + 1) := by
  constructor
  · intro env u p sv uri t R hR H
    obtain ⟨tok2, reqs, h⟩ := tcCall_all_transient env u p sv uri H R hR 0 (some t)
    simp [h]
  · intro env u p sv uri t R m d c hR hbusy h200
    obtain ⟨reqs, h⟩ := tcCall_busy_then_200 env u p sv uri m 0 R t d c hR
      (by simpa using hbusy) (by simpa using h200)
    simp [h]

/-- Environment answering every request with HTTP 503. -/
def envAll503 : Nat → Resp := fun _ => .ok 503 Val.none Option.none

/-- Environment answering 502 twice, then 200 with data "D". -/
def envBusyThen200 : Nat → Resp := fun i =>
  if i < 2 then .ok 502 Val.none Option.none else .ok 200 (.str "D") Option.none

theorem c1_retry_policy_witness :
    ((tcCall envAll503 "u" "p" "h" "r" 0 (some "T") 3).data = Val.bool false ∧
     (tcCall envAll503 "u" "p" "h" "r" 0 (some "T") 3).sleeps = 2 ∧
     (tcCall envAll503 "u" "p" "h" "r" 0 (some "T") 3).calls = 3) ∧
    ((tcCall envBusyThen200 "u" "p" "h" "r" 0 (some "T") 5).data = Val.str "D" ∧
     (tcCall envBusyThen200 "u" "p" "h" "r" 0 (some "T") 5).token = Val.str "T" ∧
     (tcCall envBusyThen200 "u" "p" "h" "r" 0 (some "T") 5).sleeps = 2 ∧
     (tcCall envBusyThen200 "u" "p" "h" "r" 0 (some "T") 5).calls = 3) := by
  constructor
  · exact c1_retry_policy.1 envAll503 "u" "p" "h" "r" "T" 3 (by omega)
      (fun i => ⟨503, Val.none, Option.none, rfl, by omega⟩)
  · exact c1_retry_policy.2 envBusyThen200 "u" "p" "h" "r" "T" 5 2 (.str "D")
      Option.none (by omega)
      (fun i hi => ⟨502, Val.none, Option.none, by simp [envBusyThen200, hi], by omega⟩)
      (by simp [envBusyThen200])

theorem tcCall_200_at (env : Nat → Resp) (u p sv uri : String) (k : Nat)
    (tok : Option String) (R : Nat) (d : Val) (c : Option String)
    (h : env k = .ok 200 d c) :
    (tcCall env u p sv uri k tok R).data = d ∧
    (tcCall env u p sv uri k tok R).sleeps = 0 ∧
    (tcCall env u p sv uri k tok R).calls = 1 := by
  match tok with
  | Option.none =>
    have hcb : callBody env u p sv uri k Option.none =
        .ok d c 200 [⟨sentUrl (rest_url u p sv uri), Option.none⟩] (k + 1) := by
      simp [callBody, initiate_rest_call, h]
    rw [tcCall, hcb]
    simp
  | some t =>
    have hcb : callBody env u p sv uri k (some t) =
        .ok d (some t) 200 [⟨sentUrl (rest_url_no_pass sv uri), some t⟩] (k + 1) := by
      simp [callBody, initiate_rest_call, h]
    rw [tcCall, hcb]
    simp

/-- C2: when a session token is supplied and the token-auth response
has status 401 or 403, the client reissues the same logical request
once against the credential-embedded URL with no cookie as the second
transport request of the call; this fallback is not repeated (a 403
answer to the fallback ends the call after exactly those two requests,
as a non-transient failure), and the status produced by the fallback
is then evaluated under the standard policy: 200 is a success with the
fallback response data, and a transient code such as 401 enters the
sleep-and-retry loop. -/
theorem c2_auth_fallback :
    (∀ (env : Nat → Resp) (u p sv uri t : String) (R : Nat) (s : Nat) (d : Val)
        (c : Option String), env 0 = .ok s d c → (s = 401 ∨ s = 403) →
      ∃ rest, (tcCall env u p sv uri 0 (some t) R).reqs =
        ⟨sentUrl (rest_url_no_pass sv uri), some t⟩ ::
        ⟨sentUrl (rest_url u p sv uri), Option.none⟩ :: rest) ∧
    (∀ (env : Nat → Resp) (u p sv uri t : String) (R : Nat) (s : Nat) (d d2 : Val)
        (c c2 : Option String), env 0 = .ok s d c → (s = 401 ∨ s = 403) →
      env 1 = .ok 403 d2 c2 →
      tcCall env u p sv uri 0 (some t) R =
        ⟨Val.bool false, Val.bool false,
         [⟨sentUrl (rest_url_no_pass sv uri), some t⟩,
          ⟨sentUrl (rest_url u p sv uri), Option.none⟩], 0, 1⟩) ∧
    (∀ (env : Nat → Resp) (u p sv uri t : String) (R : Nat) (s : Nat) (d d2 : Val)
        (c c2 : Option String), env 0 = .ok s d c → (s = 401 ∨ s = 403) →
      env 1 = .ok 200 d2 c2 →
      tcCall env u p sv uri 0 (some t) R =
        ⟨d2, valOfTok c2,
         [⟨sentUrl (rest_url_no_pass sv uri), some t⟩,
          ⟨sentUrl (rest_url u p sv uri), Option.none⟩], 0, 1⟩) ∧
    (∀ (env : Nat → Resp) (u p sv uri t : String) (R : Nat) (s : Nat) (d d2 d3 : Val)
        (c c2 c3 : Option String), env 0 = .ok s d c → (s = 401 ∨ s = 403) →
      env 1 = .ok 401 d2 c2 → 2 ≤ R → env 2 = .ok 200 d3 c3 →
      (tcCall env u p sv uri 0 (some t) R).data = d3 ∧
      (tcCall env u p sv uri 0 (some t) R).sleeps = 1 ∧
      (tcCall env u p sv uri 0 (some t) R).calls = 2) := by
  refine ⟨?_, ?_, ?_, ?_⟩
  · intro env u p sv uri t R s d c h0 hs
    cases h1 : env 1 with
    | exn =>
      have hcb : callBody env u p sv uri 0 (some t) =
          .exn d (.str t) [⟨sentUrl (rest_url_no_pass sv uri), some t⟩,
                           ⟨sentUrl (rest_url u p sv uri), Option.none⟩] := by
        simp [callBody, initiate_rest_call, h0, h1, hs, valOfTok]
      rw [tcCall, hcb]
      exact ⟨[], rfl⟩
    | ok s2 d2 c2 =>
      have hcb : callBody env u p sv uri 0 (some t) =
          .ok d2 c2 s2 [⟨sentUrl (rest_url_no_pass sv uri), some t⟩,
                        ⟨sentUrl (rest_url u p sv uri), Option.none⟩] 2 := by
        simp [callBody, initiate_rest_call, h0, h1, hs]
      rw [tcCall, hcb]
      dsimp only
      split
      · split
        · exact ⟨[], rfl⟩
        · exact ⟨_, rfl⟩
      · split
        · exact ⟨[], rfl⟩
        · exact ⟨[], rfl⟩
  · intro env u p sv uri t R s d d2 c c2 h0 hs h1
    have hcb : callBody env u p sv uri 0 (some t) =
        .ok d2 c2 403 [⟨sentUrl (rest_url_no_pass sv uri), some t⟩,
                       ⟨sentUrl (rest_url u p sv uri), Option.none⟩] 2 := by
      simp [callBody, initiate_rest_call, h0, h1, hs]
    rw [tcCall, hcb]
    simp
  · intro env u p sv uri t R s d d2 c c2 h0 hs h1
    have hcb : callBody env u p sv uri 0 (some t) =
        .ok d2 c2 200 [⟨sentUrl (rest_url_no_pass sv uri), some t⟩,
                       ⟨sentUrl (rest_url u p sv uri), Option.none⟩] 2 := by
      simp [callBody, initiate_rest_call, h0, h1, hs]
    rw [tcCall, hcb]
    simp
  · intro env u p sv uri t R s d d2 d3 c c2 c3 h0 hs h1 hR h2
    have hcb : callBody env u p sv uri 0 (some t) =
        .ok d2 c2 401 [⟨sentUrl (rest_url_no_pass sv uri), some t⟩,
                       ⟨sentUrl (rest_url u p sv uri), Option.none⟩] 2 := by
      simp [callBody, initiate_rest_call, h0, h1, hs]
    rw [tcCall, hcb]
    dsimp only
    rw [if_pos (by omega : 401 = 500 ∨ 401 = 502 ∨ 401 = 503 ∨ 401 = 401)]
    split
    · rename_i hbad
      exact absurd hbad (by omega)
    · obtain ⟨ha, hb, hc⟩ := tcCall_200_at env u p sv uri 2 c2 (R - 1) d3 c3 h2
      refine ⟨ha, ?_, ?_⟩ <;> simp [hb, hc]

/-- Environment for the C2 witness: a stale-token 401, then a 403 on
the credential fallback. -/
def envStale403 : Nat → Resp := fun i =>
  if i = 0 then .ok 401 Val.none (some "c0") else .ok 403 Val.none Option.none

/-- Environment for the C2 witness: a stale-token 403, then 200 with
data "OK" and a fresh cookie on the credential fallback. -/
def envStale200 : Nat → Resp := fun i =>
  if i = 0 then .ok 403 Val.none Option.none else .ok 200 (.str "OK") (some "c1")

/-- Environment for the C2 witness: 401 with token, 401 again on the
fallback, then 200 on the retried call. -/
def envStaleRetry : Nat → Resp := fun i =>
  if i ≤ 1 then .ok 401 Val.none Option.none else .ok 200 (.str "K") Option.none

theorem c2_auth_fallback_witness :
    (∃ rest, (tcCall envStale403 "u" "p" "h" "r" 0 (some "T") 10).reqs =
      ⟨sentUrl (rest_url_no_pass "h" "r"), some "T"⟩ ::
      ⟨sentUrl (rest_url "u" "p" "h" "r"), Option.none⟩ :: rest) ∧
    tcCall envStale403 "u" "p" "h" "r" 0 (some "T") 10 =
      ⟨Val.bool false, Val.bool false,
       [⟨sentUrl (rest_url_no_pass "h" "r"), some "T"⟩,
        ⟨sentUrl (rest_url "u" "p" "h" "r"), Option.none⟩], 0, 1⟩ ∧
    tcCall envStale200 "u" "p" "h" "r" 0 (some "T") 10 =
      ⟨Val.str "OK", Val.str "c1",
       [⟨sentUrl (rest_url_no_pass "h" "r"), some "T"⟩,
        ⟨sentUrl (rest_url "u" "p" "h" "r"), Option.none⟩], 0, 1⟩ ∧
    ((tcCall envStaleRetry "u" "p" "h" "r" 0 (some "T") 10).data = Val.str "K" ∧
     (tcCall envStaleRetry "u" "p" "h" "r" 0 (some "T") 10).sleeps = 1 ∧
     (tcCall envStaleRetry "u" "p" "h" "r" 0 (some "T") 10).calls = 2) := by
  refine ⟨?_, ?_, ?_, ?_⟩
  · exact c2_auth_fallback.1 envStale403 "u" "p" "h" "r" "T" 10 401 Val.none
      (some "c0") rfl (by omega)
  · exact c2_auth_fallback.2.1 envStale403 "u" "p" "h" "r" "T" 10 401 Val.none
      Val.none (some "c0") Option.none rfl (by omega) rfl
  · exact c2_auth_fallback.2.2.1 envStale200 "u" "p" "h" "r" "T" 10 403 Val.none
      (.str "OK") Option.none (some "c1") rfl (by omega) rfl
  · exact c2_auth_fallback.2.2.2 envStaleRetry "u" "p" "h" "r" "T" 10 401 Val.none
      Val.none (.str "K") Option.none Option.none Option.none rfl (by omega) rfl
      (by omega) rfl

/-! ## C3: transport exceptions -/

/-- Environment raising a transport exception on every request. -/
def envC3 : Nat → Resp := fun _ => Resp.exn

/-- C3 counterexample: when the first transport request of a call
raises, the data component of the returned pair is the empty string
rest_data was initialized to on line 226 - not the boolean failure
value False that the claim asserts. -/
theorem c3_counterexample :
    (tcCall envC3 "u" "p" "h" "r" 0 (some "T") 10).data = Val.str "" ∧
    Val.str "" ≠ Val.bool false ∧
    (tcCall envC3 "u" "p" "h" "r" 0 (some "T") 10).sleeps = 0 ∧
    (tcCall envC3 "u" "p" "h" "r" 0 (some "T") 10).calls = 1 := by
  refine ⟨?_, ?_, ?_, ?_⟩
  · simp [tcCall, callBody, initiate_rest_call, envC3]
  · intro h
    exact nomatch h
  · simp [tcCall, callBody, initiate_rest_call, envC3]
  · simp [tcCall, callBody, initiate_rest_call, envC3]

/-- C3 amended: a transport-level exception is caught and ends the
call at once - no retry, no sleep, a single logical attempt - and the
call returns the rest_data accумulated so far together with the
current token: the empty string and the input token when the first
request of the call failed, and the token-auth response data with the
preserved token when the credential fallback request failed. -/
theorem c3_transport_exception :
    (∀ (env : Nat → Resp) (u p sv uri t : String) (R k : Nat), env k = Resp.exn →
      tcCall env u p sv uri k (some t) R =
        ⟨Val.str "", Val.str t, [⟨sentUrl (rest_url_no_pass sv uri), some t⟩], 0, 1⟩) ∧
    (∀ (env : Nat → Resp) (u p sv uri : String) (R k : Nat), env k = Resp.exn →
      tcCall env u p sv uri k Option.none R =
        ⟨Val.str "", Val.none, [⟨sentUrl (rest_url u p sv uri), Option.none⟩], 0, 1⟩) ∧
    (∀ (env : Nat → Resp) (u p sv uri t : String) (R k s : Nat) (d : Val)
        (c : Option String), env k = .ok s d c → (s = 401 ∨ s = 403) →
      env (k + 1) = Resp.exn →
      tcCall env u p sv uri k (some t) R =
        ⟨d, Val.str t, [⟨sentUrl (rest_url_no_pass sv uri), some t⟩,
                        ⟨sentUrl (rest_url u p sv uri), Option.none⟩], 0, 1⟩) := by
  refine ⟨?_, ?_, ?_⟩
  · intro env u p sv uri t R k hk
    have hcb : callBody env u p sv uri k (some t) =
        .exn (.str "") (.str t) [⟨sentUrl (rest_url_no_pass sv uri), some t⟩] := by
      simp [callBody, initiate_rest_call, hk]
    rw [tcCall, hcb]
  · intro env u p sv uri R k hk
    have hcb : callBody env u p sv uri k Option.none =
        .exn (.str "") Val.none [⟨sentUrl (rest_url u p sv uri), Option.none⟩] := by
      simp [callBody, initiate_rest_call, hk]
    rw [tcCall, hcb]
  · intro env u p sv uri t R k s d c hk hs hk1
    have hcb : callBody env u p sv uri k (some t) =
        .exn d (.str t) [⟨sentUrl (rest_url_no_pass sv uri), some t⟩,
                         ⟨sentUrl (rest_url u p sv uri), Option.none⟩] := by
      simp [callBody, initiate_rest_call, hk, hk1, hs, valOfTok]
    rw [tcCall, hcb]

/-- Environment for the C3 witness: a stale-token 401, then an
exception on the credential fallback. -/
def envC3W : Nat → Resp := fun i =>
  if i = 0 then .ok 401 (.str "A") Option.none else Resp.exn

theorem c3_transport_exception_witness :
    tcCall envC3 "u2" "p2" "h2" "r2" 0 (some "S") 7 =
      ⟨Val.str "", Val.str "S", [⟨sentUrl (rest_url_no_pass "h2" "r2"), some "S"⟩], 0, 1⟩ ∧
    tcCall envC3 "u2" "p2" "h2" "r2" 3 Option.none 7 =
      ⟨Val.str "", Val.none, [⟨sentUrl (rest_url "u2" "p2" "h2" "r2"), Option.none⟩], 0, 1⟩ ∧
    tcCall envC3W "u2" "p2" "h2" "r2" 0 (some "S") 7 =
      ⟨Val.str "A", Val.str "S", [⟨sentUrl (rest_url_no_pass "h2" "r2"), some "S"⟩,
                                  ⟨sentUrl (rest_url "u2" "p2" "h2" "r2"), Option.none⟩], 0, 1⟩ := by
  refine ⟨?_, ?_, ?_⟩
  · exact c3_transport_exception.1 envC3 "u2" "p2" "h2" "r2" "S" 7 0 rfl
  · exact c3_transport_exception.2.1 envC3 "u2" "p2" "h2" "r2" 7 3 rfl
  · exact c3_transport_exception.2.2 envC3W "u2" "p2" "h2" "r2" "S" 7 0 401
      (.str "A") Option.none rfl (by omega) rfl

/-! ## C10: the httpAuth URL rewrite -/

/-- Requests issued by one call body. -/
def bodyReqs : BodyOut → List Req
  | .exn _ _ reqs => reqs
  | .ok _ _ _ reqs _ => reqs

theorem callBody_reqs_urls (env : Nat → Resp) (u p sv uri : String) (k : Nat)
    (tok : Option String) :
    ∀ r ∈ bodyReqs (callBody env u p sv uri k tok),
      r.url = sentUrl (rest_url u p sv uri) ∨
      r.url = sentUrl (rest_url_no_pass sv uri) := by
  intro r hr
  cases tok with
  | none =>
    cases hek : env k with
    | exn =>
      simp [callBody, initiate_rest_call, hek, bodyReqs] at hr
      simp [hr]
    | ok s d c =>
      simp [callBody, initiate_rest_call, hek, bodyReqs] at hr
      simp [hr]
  | some t =>
    cases hek : env k with
    | exn =>
      simp [callBody, initiate_rest_call, hek, bodyReqs] at hr
      simp [hr]
    | ok s d c =>
      by_cases hst : s = 401 ∨ s = 403
      · cases hek2 : env (k + 1) with
        | exn =>
          simp [callBody, initiate_rest_call, hek, hek2, hst, bodyReqs] at hr
          rcases hr with rfl | rfl <;> simp
        | ok s2 d2 c2 =>
          simp [callBody, initiate_rest_call, hek, hek2, hst, bodyReqs] at hr
          rcases hr with rfl | rfl <;> simp
      · simp [callBody, initiate_rest_call, hek, hst, bodyReqs] at hr
        simp [hr]

/-- C10 amended: every URL handed to the transport by the
Session-Reuse Client is one of the two constructed URLs with EVERY
occurrence of "/httpAuth/" replaced by "/" (Python str.replace
replaces all occurrences, not only the first). -/
theorem c10_url_rewrite (env : Nat → Resp) (u p sv uri : String) :
    ∀ R k tok r, r ∈ (tcCall env u p sv uri k tok R).reqs →
      r.url = sentUrl (rest_url u p sv uri) ∨
      r.url = sentUrl (rest_url_no_pass sv uri) := by
  intro R
  induction R using Nat.strong_induction_on with
  | _ R ih =>
    intro k tok r hr
    cases hcb : callBody env u p sv uri k tok with
    | exn d t reqs =>
      rw [tcCall, hcb] at hr
      exact callBody_reqs_urls env u p sv uri k tok r (by simp [hcb, bodyReqs]; exact hr)
    | ok d tok2 s reqs k2 =>
      rw [tcCall, hcb] at hr
      dsimp only at hr
      have hbody : ∀ r2, r2 ∈ reqs →
          r2.url = sentUrl (rest_url u p sv uri) ∨
          r2.url = sentUrl (rest_url_no_pass sv uri) := by
        intro r2 hr2
        exact callBody_reqs_urls env u p sv uri k tok r2 (by simp [hcb, bodyReqs]; exact hr2)
      split at hr
      · split at hr
        · exact hbody r hr
        · rename_i h1
          simp only [List.mem_append] at hr
          rcases hr with hr | hr
          · exact hbody r hr
          · exact ih (R - 1) (by omega) k2 tok2 r hr
      · split at hr
        · exact hbody r hr
        · exact hbody r hr

/-- Environment for the C10 theorems: every request answered 200. -/
def envC10 : Nat → Resp := fun _ => .ok 200 Val.none Option.none

/-- C10 counterexample: with a REST path containing a second
"/httpAuth/" substring, the URL actually sent has BOTH occurrences
replaced, which differs from the claimed first-occurrence-only
rewrite. -/
theorem c10_counterexample :
    (tcCall envC10 "u" "p" "h" "httpAuth/a/httpAuth/b" 0 Option.none 1).reqs.map Req.url =
      ["https://u:p@h/a/b"] ∧
    specSentUrlFirst (rest_url "u" "p" "h" "httpAuth/a/httpAuth/b") =
      "https://u:p@h/a/httpAuth/b" ∧
    ("https://u:p@h/a/b" : String) ≠ "https://u:p@h/a/httpAuth/b" := by
  refine ⟨?_, by decide, by decide⟩
  have h : (tcCall envC10 "u" "p" "h" "httpAuth/a/httpAuth/b" 0 Option.none 1).reqs =
      [⟨sentUrl (rest_url "u" "p" "h" "httpAuth/a/httpAuth/b"), Option.none⟩] := by
    simp [tcCall, callBody, initiate_rest_call, envC10]
  rw [h]
  simp only [List.map]
  refine congrArg (fun x => [x]) ?_
  decide

theorem c10_url_rewrite_witness :
    Req.url ⟨"https://u:p@h/a/b", Option.none⟩ =
      sentUrl (rest_url "u" "p" "h" "httpAuth/a/httpAuth/b") ∨
    Req.url ⟨"https://u:p@h/a/b", Option.none⟩ =
      sentUrl (rest_url_no_pass "h" "httpAuth/a/httpAuth/b") := by
  refine c10_url_rewrite envC10 "u" "p" "h" "httpAuth/a/httpAuth/b" 1 0 Option.none
    ⟨"https://u:p@h/a/b", Option.none⟩ ?_
  have h : (tcCall envC10 "u" "p" "h" "httpAuth/a/httpAuth/b" 0 Option.none 1).reqs =
      [⟨sentUrl (rest_url "u" "p" "h" "httpAuth/a/httpAuth/b"), Option.none⟩] := by
    simp [tcCall, callBody, initiate_rest_call, envC10]
  rw [h]
  have h2 : sentUrl (rest_url "u" "p" "h" "httpAuth/a/httpAuth/b") =
      "https://u:p@h/a/b" := by decide
  rw [h2]
  exact List.mem_singleton.mpr rfl

/-! ## C4: the Build Trigger validation retry -/

/-- A trigger REST answer that fails the validation of lines 412-428
without raising: falsy, or a truthy dict without a build entry, or
with a build dict lacking href. -/
inductive TriggerInvalid : Val → Prop where
  | falsy : ∀ v, pyTruthy v = false → TriggerInvalid v
  | noBuild : ∀ d, pyTruthy (Val.dict d) = true → vLookup d "build" = Option.none →
      TriggerInvalid (.dict d)
  | noHref : ∀ d b, pyTruthy (Val.dict d) = true →
      vLookup d "build" = some (.dict b) → vLookup b "href" = Option.none →
      TriggerInvalid (.dict d)

/-- A trigger REST answer that passes validation: a truthy dict whose
build entry is a dict containing href. -/
def TriggerValid (v : Val) : Prop :=
  ∃ d b, v = .dict d ∧ pyTruthy (.dict d) = true ∧
    vLookup d "build" = some (.dict b) ∧ (vLookup b "href").isSome = true

theorem trigGo_invalid_step (resp : Nat → Val) (cur : Nat) (ret v : Val)
    (hv : resp cur = v) (hinv : TriggerInvalid v) (hcur : cur ≤ 2) :
    trigGo resp cur ret =
      trigGo resp (cur + 1) (if pyTruthy v then v else ret) := by
  rw [trigGo]
  rw [if_neg (by omega : ¬ 2 < cur)]
  rw [hv]
  cases hinv with
  | falsy v hf => simp [hf]
  | noBuild d ht hn => simp [ht, hn]
  | noHref d b ht hb hh => simp [ht, hb, hh]

theorem trigGo_valid_step (resp : Nat → Val) (cur : Nat) (ret : Val)
    (hval : TriggerValid (resp cur)) (hcur : cur ≤ 2) :
    trigGo resp cur ret = .ok (resp cur, cur) := by
  obtain ⟨d, b, hv, ht, hb, hh⟩ := hval
  rw [trigGo]
  rw [if_neg (by omega : ¬ 2 < cur)]
  simp [hv, ht, hb, hh]

/-- C4 counterexample: when both attempts return a truthy result that
fails validation (a build entry without href), the function returns
that non-empty result, not an empty one as the claim asserts. -/
theorem c4_counterexample :
    trigger_build_with_changeID (fun _ => .dict [("build", .dict [])]) =
      .ok (.dict [("build", .dict [])], 2) ∧
    Val.dict [("build", .dict [])] ≠ Val.str "" := by
  refine ⟨?_, fun h => nomatch h⟩
  simp [trigger_build_with_changeID, trigGo, pyTruthy, vLookup]

/-- C4 amended: the Build Trigger makes at most 2 submissions; a first
attempt failing validation followed by a second attempt containing
build.href returns the second result after exactly 2 submissions, and
a first valid attempt returns after exactly 1; when both attempts fail
validation the function gives up after 2 submissions and returns the
last truthy response received (the empty string only when no attempt
produced a truthy response). -/
theorem c4_trigger_retry :
    (∀ resp : Nat → Val, TriggerInvalid (resp 1) → TriggerValid (resp 2) →
      trigger_build_with_changeID resp = .ok (resp 2, 2)) ∧
    (∀ resp : Nat → Val, TriggerValid (resp 1) →
      trigger_build_with_changeID resp = .ok (resp 1, 1)) ∧
    (∀ resp : Nat → Val, TriggerInvalid (resp 1) → TriggerInvalid (resp 2) →
      trigger_build_with_changeID resp =
        .ok ((if pyTruthy (resp 2) then resp 2
              else if pyTruthy (resp 1) then resp 1 else .str ""), 2)) := by
  refine ⟨?_, ?_, ?_⟩
  · intro resp h1 h2
    rw [trigger_build_with_changeID, trigGo_invalid_step resp 1 _ _ rfl h1 (by omega),
        trigGo_valid_step resp 2 _ h2 (by omega)]
  · intro resp h1
    rw [trigger_build_with_changeID, trigGo_valid_step resp 1 _ h1 (by omega)]
  · intro resp h1 h2
    rw [trigger_build_with_changeID, trigGo_invalid_step resp 1 _ _ rfl h1 (by omega),
        trigGo_invalid_step resp 2 _ _ rfl h2 (by omega)]
    rw [trigGo]
    rw [if_pos (by omega : 2 < 3)]

/-- Trigger oracle for the C4 witness: first answer lacks the build
entry, second answer carries build.href. -/
def respC4W : Nat → Val := fun i =>
  if i = 1 then .dict [("a", Val.none)]
  else .dict [("build", .dict [("href", .str "H")])]

theorem c4_trigger_retry_witness :
    trigger_build_with_changeID respC4W =
      .ok (.dict [("build", .dict [("href", .str "H")])], 2) := by
  have h := c4_trigger_retry.1 respC4W
    (TriggerInvalid.noBuild [("a", Val.none)] rfl rfl)
    ⟨[("build", .dict [("href", .str "H")])], [("href", .str "H")], rfl, rfl, rfl, rfl⟩
  exact h

/-! ## Orchestrator lemmas (C5, C6, C9) -/

/-- The change id the loop selects from a list of string ids: None for
an empty list, else the lexicographic maximum. -/
def maxIdVal : List String → Val
  | [] => Val.none
  | i :: rest => .str (pyMaxStr i rest)

theorem pyTruthy_mkSnap (bt br st : String) (ids : List String) :
    pyTruthy (mkSnap bt br st ids) = true := rfl

theorem getIds_mk (ids : List String) :
    getIds (ids.map (fun i => Val.dict [("id", .str i)])) = .ok (ids.map Val.str) := by
  induction ids with
  | nil => simp [getIds]
  | cons i rest ih =>
    simp [getIds, vget, vgetD, vLookup, ih, bind, Except.bind]

theorem asStrList_map (l : List String) : asStrList (l.map Val.str) = .ok l := by
  induction l with
  | nil => simp [asStrList]
  | cons x xs ih =>
    simp [asStrList, asStr, ih, bind, Except.bind]

theorem pyMaxOfIds_strs (ids : List String) (h : ids ≠ []) :
    pyMaxOfIds (ids.map Val.str) = .ok (maxIdVal ids) := by
  match ids with
  | [] => exact absurd rfl h
  | [i] => simp [pyMaxOfIds, maxIdVal, pyMaxStr]
  | i :: j :: rest =>
    have hmap := asStrList_map (j :: rest)
    simp only [List.map] at hmap
    simp [pyMaxOfIds, maxIdVal, asStr, hmap, bind, Except.bind]

theorem extractSnap_mkSnap (btid0 : Val) (bt br st : String) (ids : List String) :
    extractSnap btid0 (mkSnap bt br st ids) =
      .ok ⟨(if pyTruthy btid0 then btid0 else .str bt), .str br, .str st,
           maxIdVal ids⟩ := by
  cases hids : ids with
  | nil =>
    cases hpt : pyTruthy btid0 <;>
      simp [extractSnap, mkSnap, vget, vgetD, vLookup, iterIds, getIds, maxIdVal,
            hpt, bind, Except.bind]
  | cons i rest =>
    have hg := getIds_mk (i :: rest)
    simp only [List.map] at hg
    have hm := pyMaxOfIds_strs (i :: rest) (by simp)
    simp only [List.map] at hm
    have hmax : maxIdVal (i :: rest) = .str (pyMaxStr i rest) := rfl
    rw [hmax] at hm
    cases hpt : pyTruthy btid0 <;>
      simp [extractSnap, mkSnap, vget, vgetD, vLookup, iterIds, maxIdVal,
            hpt, hg, hm, bind, Except.bind]

theorem orchLoop_break (inspect : Nat → Val) (total : Nat) (btid0 : Val) (n : Nat)
    (bt br st : String) (ids : List String)
    (hin : inspect n = mkSnap bt br st ids)
    (hcond : ¬(valEqStr (Val.str st) "running" = true ∧ n + 1 < total)) :
    orchLoop inspect total btid0 n =
      ⟨.done (if pyTruthy btid0 then btid0 else .str bt) (.str br) (.str st)
        (maxIdVal ids), 1, 0⟩ := by
  rw [orchLoop]
  simp only [hin, pyTruthy_mkSnap, if_true, extractSnap_mkSnap]
  rw [if_neg hcond]

theorem orchLoop_run_then_done (inspect : Nat → Val) (total : Nat)
    (bt2 br2 st : String) (ids2 : List String) (hst : st ≠ "running") :
    ∀ (m : Nat) (btf brf : Nat → String) (idsf : Nat → List String) (n : Nat)
      (btid0 : Val),
      (∀ k, k < m → inspect (n + k) = mkSnap (btf k) (brf k) "running" (idsf k)) →
      inspect (n + m) = mkSnap bt2 br2 st ids2 →
      n + m + 1 ≤ total →
      ∃ b, orchLoop inspect total btid0 n =
        ⟨.done b (.str br2) (.str st) (maxIdVal ids2), m + 1, m⟩ := by
  intro m
  induction m with
  | zero =>
    intro btf brf idsf n btid0 _ hterm htot
    simp only [Nat.add_zero] at hterm
    refine ⟨_, orchLoop_break inspect total btid0 n bt2 br2 st ids2 hterm ?_⟩
    rintro ⟨hv, -⟩
    simp [valEqStr] at hv
    exact hst hv
  | succ m ih =>
    intro btf brf idsf n btid0 hrun hterm htot
    have h0 := hrun 0 (by omega)
    simp only [Nat.add_zero] at h0
    rw [orchLoop]
    simp only [h0, pyTruthy_mkSnap, if_true, extractSnap_mkSnap]
    rw [if_pos (by exact ⟨by decide, by omega⟩)]
    have hshift : ∀ k, k < m → inspect (n + 1 + k) = mkSnap (btf (k + 1)) (brf (k + 1))
        "running" (idsf (k + 1)) := by
      intro k hk
      have := hrun (k + 1) (by omega)
      simpa [Nat.add_assoc, Nat.add_comm, Nat.add_left_comm] using this
    have hterm2 : inspect (n + 1 + m) = mkSnap bt2 br2 st ids2 := by
      simpa [Nat.add_assoc, Nat.add_comm, Nat.add_left_comm] using hterm
    obtain ⟨b, hrec⟩ := ih (fun k => btf (k + 1)) (fun k => brf (k + 1))
      (fun k => idsf (k + 1)) (n + 1)
      (if pyTruthy btid0 = true then btid0 else Val.str (btf 0)) hshift hterm2 (by omega)
    exact ⟨b, by simp [hrec]⟩

theorem orchLoop_all_running (inspect : Nat → Val) (total : Nat)
    (btf brf : Nat → String) (idsf : Nat → List String)
    (hrun : ∀ k, k < total → inspect k = mkSnap (btf k) (brf k) "running" (idsf k)) :
    ∀ fuel n btid0, total - n = fuel → n < total →
      ∃ b br ch, orchLoop inspect total btid0 n =
        ⟨.done b br (.str "running") ch, total - n, total - n - 1⟩ := by
  intro fuel
  induction fuel using Nat.strong_induction_on with
  | _ fuel ih =>
    intro n btid0 hfuel hlt
    have h0 := hrun n hlt
    rw [orchLoop]
    simp only [h0, pyTruthy_mkSnap, if_true, extractSnap_mkSnap]
    by_cases hc : n + 1 < total
    · rw [if_pos (by exact ⟨by decide, hc⟩)]
      obtain ⟨b, br, ch, hrec⟩ := ih (total - (n + 1)) (by omega) (n + 1)
        (if pyTruthy btid0 = true then btid0 else Val.str (btf n)) rfl hc
      refine ⟨b, br, ch, ?_⟩
      simp [hrec, LoopOut.mk.injEq]
      omega
    · rw [if_neg (by intro h; exact hc h.2)]
      refine ⟨(if pyTruthy btid0 = true then btid0 else Val.str (btf n)),
        Val.str (brf n), maxIdVal (idsf n), ?_⟩
      simp [LoopOut.mk.injEq]
      omega

theorem runTrigger_obs (tr : Nat → Val) (ch : Val) (insp slp : Nat) :
    (runTrigger tr ch insp slp).inspections = insp ∧
    (runTrigger tr ch insp slp).pollSleeps = slp ∧
    (runTrigger tr ch insp slp).triggered = true ∧
    (runTrigger tr ch insp slp).resolvedChange = some ch := by
  unfold runTrigger
  split
  · simp
  · split <;> simp

/-- C5: with "only if finished" set and the original build reporting
"running" on the first N - 1 inspections and a terminal state on
inspection N (N within the attempt budget), the orchestrator makes
exactly N inspection calls with a sleep between consecutive ones
(N - 1 sleeps) and then invokes the Build Trigger; when every
inspection within the budget reports "running", it makes exactly
total_attempts inspections and aborts with the failure pair, never
invoking the trigger. -/
theorem c5_poll_until_terminal :
    (∀ (inspect trigResp : Nat → Val) (ob btid0 : Val) (total N : Nat)
        (bt2 br2 st : String) (ids2 : List String)
        (btf brf : Nat → String) (idsf : Nat → List String),
      pyTruthy ob = true → 1 ≤ N → N ≤ total →
      (∀ k, k < N - 1 → inspect k = mkSnap (btf k) (brf k) "running" (idsf k)) →
      inspect (N - 1) = mkSnap bt2 br2 st ids2 → st ≠ "running" →
      (trigger_build_with_same_revision inspect trigResp ob btid0 true total).inspections = N ∧
      (trigger_build_with_same_revision inspect trigResp ob btid0 true total).pollSleeps = N - 1 ∧
      (trigger_build_with_same_revision inspect trigResp ob btid0 true total).triggered = true) ∧
    (∀ (inspect trigResp : Nat → Val) (ob btid0 : Val) (total : Nat)
        (btf brf : Nat → String) (idsf : Nat → List String),
      pyTruthy ob = true → 1 ≤ total →
      (∀ k, k < total → inspect k = mkSnap (btf k) (brf k) "running" (idsf k)) →
      (trigger_build_with_same_revision inspect trigResp ob btid0 true total).result = OrchResult.failPair ∧
      (trigger_build_with_same_revision inspect trigResp ob btid0 true total).triggered = false ∧
      (trigger_build_with_same_revision inspect trigResp ob btid0 true total).inspections = total ∧
      (trigger_build_with_same_revision inspect trigResp ob btid0 true total).pollSleeps = total - 1) := by
  constructor
  · intro inspect trigResp ob btid0 total N bt2 br2 st ids2 btf brf idsf
      hob hN htot hrun hterm hst
    obtain ⟨b, hloop⟩ := orchLoop_run_then_done inspect total bt2 br2 st ids2 hst
      (N - 1) btf brf idsf 0 btid0 (by simpa using hrun) (by simpa using hterm)
      (by omega)
    have horch : trigger_build_with_same_revision inspect trigResp ob btid0 true total =
        runTrigger trigResp (maxIdVal ids2) (N - 1 + 1) (N - 1) := by
      unfold trigger_build_with_same_revision
      rw [if_pos hob]
      simp only [Bool.not_true]
      rw [if_neg (show ¬(false = true) by decide)]
      rw [hloop]
      dsimp only
      rw [if_neg (by rintro ⟨-, hv⟩; simp [valEqStr] at hv; exact hst hv)]
    obtain ⟨h1, h2, h3, _⟩ := runTrigger_obs trigResp (maxIdVal ids2) (N - 1 + 1) (N - 1)
    rw [horch]
    refine ⟨?_, h2, h3⟩
    rw [h1]
    omega
  · intro inspect trigResp ob btid0 total btf brf idsf hob htot hrun
    obtain ⟨b, br, ch, hloop⟩ := orchLoop_all_running inspect total btf brf idsf hrun
      (total - 0) 0 btid0 rfl (by omega)
    have horch : trigger_build_with_same_revision inspect trigResp ob btid0 true total =
        ⟨.failPair, total - 0, total - 0 - 1, false, 0, Option.none⟩ := by
      unfold trigger_build_with_same_revision
      rw [if_pos hob]
      simp only [Bool.not_true]
      rw [if_neg (show ¬(false = true) by decide)]
      rw [hloop]
      dsimp only
      rw [if_pos ⟨by trivial, by decide⟩]
    rw [horch]
    refine ⟨rfl, rfl, ?_, ?_⟩ <;> dsimp only <;> omega

/-- Inspection oracle for the C5 witness: "running" twice, then
"finished". -/
def inspC5 : Nat → Val := fun k =>
  if k < 2 then mkSnap "bt" "br" "running" [] else mkSnap "bt" "br" "finished" []

/-- Inspection oracle for the C5 witness: always "running". -/
def inspC5R : Nat → Val := fun _ => mkSnap "bt" "br" "running" []

/-- Trigger oracle for the C5 witness. -/
def trigC5 : Nat → Val := fun _ => .bool false

theorem c5_poll_until_terminal_witness :
    ((trigger_build_with_same_revision inspC5 trigC5 (.str "B") Val.none true 120).inspections = 3 ∧
     (trigger_build_with_same_revision inspC5 trigC5 (.str "B") Val.none true 120).pollSleeps = 2 ∧
     (trigger_build_with_same_revision inspC5 trigC5 (.str "B") Val.none true 120).triggered = true) ∧
    ((trigger_build_with_same_revision inspC5R trigC5 (.str "B") Val.none true 4).result = OrchResult.failPair ∧
     (trigger_build_with_same_revision inspC5R trigC5 (.str "B") Val.none true 4).triggered = false ∧
     (trigger_build_with_same_revision inspC5R trigC5 (.str "B") Val.none true 4).inspections = 4 ∧
     (trigger_build_with_same_revision inspC5R trigC5 (.str "B") Val.none true 4).pollSleeps = 3) := by
  constructor
  · exact c5_poll_until_terminal.1 inspC5 trigC5 (.str "B") Val.none 120 3
      "bt" "br" "finished" [] (fun _ => "bt") (fun _ => "br") (fun _ => [])
      rfl (by omega) (by omega)
      (fun k hk => by simp [inspC5]; omega)
      (by simp [inspC5]) (by decide)
  · exact c5_poll_until_terminal.2 inspC5R trigC5 (.str "B") Val.none 4
      (fun _ => "bt") (fun _ => "br") (fun _ => [])
      rfl (by omega) (fun k _ => rfl)

/-! ## C6: the success and failure shapes of the orchestrator -/

/-- Inspection oracle for C6 (never consulted: no original build). -/
def inspC6 : Nat → Val := fun _ => Val.none

/-- Trigger oracle for C6: the Session-Reuse Client failed both
submissions, so trigger_build_with_changeID returns its initial empty
string. -/
def trigC6 : Nat → Val := fun _ => .bool false

/-- C6: called with a valid configuration id, no original build, and a
Build Trigger whose two submissions both fail, the orchestrator
reaches line 507 with trigger_info = "" and raises TypeError while
subscripting it - an uncaught exception instead of the checkable
failure sentinel the claim promises on every failure path. -/
theorem c6_sentinel_violation :
    (trigger_build_with_same_revision inspC6 trigC6 Val.none (.str "Cfg1") true 120).result =
      OrchResult.exn "TypeError: not subscriptable" ∧
    (trigger_build_with_same_revision inspC6 trigC6 Val.none (.str "Cfg1") true 120).triggered = true ∧
    (trigger_build_with_same_revision inspC6 trigC6 Val.none (.str "Cfg1") true 120).submissions = 2 := by
  refine ⟨?_, ?_, ?_⟩ <;>
    simp +decide [trigger_build_with_same_revision, runTrigger,
      trigger_build_with_changeID, trigGo, trigC6, pyTruthy, vIndex,
      bind, Except.bind, Except.instMonad]

/-! ## C7: the XML flattening -/

/-- C7: an element with two same-named children maps its tag to the
ordered two-element list of the children's flattened payloads; a
single child stays a bare mapping with no list wrapper; attributes are
merged as sibling keys; stripped text is kept under the sentinel key
only when children or attributes are also present, and otherwise
replaces the value entirely. -/
theorem c7_etree_flatten :
    (∀ (t : String) (c1 c2 : XElem), c1.tag = c2.tag →
      etree_to_dict (.mk t [] Option.none [c1, c2]) =
        .dict [(t, .dict [(c2.tag, .list [etreeBody c1, etreeBody c2])])]) ∧
    (∀ (t : String) (c : XElem),
      etree_to_dict (.mk t [] Option.none [c]) =
        .dict [(t, .dict [(c.tag, etreeBody c)])]) ∧
    (∀ (t a v : String) (c : XElem), a ≠ c.tag →
      etree_to_dict (.mk t [(a, v)] Option.none [c]) =
        .dict [(t, .dict [(c.tag, etreeBody c), (a, .str v)])]) ∧
    (∀ (t a v x txt : String), x.isEmpty = false → pyStrip x = txt →
      txt.isEmpty = false → a ≠ "#text" →
      etree_to_dict (.mk t [(a, v)] (some x) []) =
        .dict [(t, .dict [(a, .str v), ("#text", .str txt)])]) ∧
    (∀ (t x txt : String), x.isEmpty = false → pyStrip x = txt →
      etree_to_dict (.mk t [] (some x) []) = .dict [(t, .str txt)]) := by
  refine ⟨?_, ?_, ?_, ?_, ?_⟩
  · intro t c1 c2 hc
    simp [etree_to_dict, etreeBody, XElem.tag_mk, XElem.attrib_mk, XElem.text_mk, XElem.children_mk, etreeChildDicts, groupChildren, addEntry,
          collapse, hc]
  · intro t c
    simp [etree_to_dict, etreeBody, XElem.tag_mk, XElem.attrib_mk, XElem.text_mk, XElem.children_mk, etreeChildDicts, groupChildren, addEntry,
          collapse]
  · intro t a v c hne
    simp [etree_to_dict, etreeBody, XElem.tag_mk, XElem.attrib_mk, XElem.text_mk, XElem.children_mk, etreeChildDicts, groupChildren, addEntry,
          collapse, dictUpdate, dictSet, Ne.symm hne]
  · intro t a v x txt hx hstrip htxt hne
    simp [etree_to_dict, etreeBody, XElem.tag_mk, XElem.attrib_mk, XElem.text_mk, XElem.children_mk, dictUpdate, dictSet, hx, hstrip, htxt, hne]
  · intro t x txt hx hstrip
    simp [etree_to_dict, etreeBody, XElem.tag_mk, XElem.attrib_mk, XElem.text_mk, XElem.children_mk, hx, hstrip]

set_option maxRecDepth 4000 in
theorem c7_etree_flatten_witness :
    etree_to_dict (.mk "r" [] Option.none
        [.mk "c" [] Option.none [], .mk "c" [("x", "1")] Option.none []]) =
      .dict [("r", .dict [("c", .list
        [etreeBody (.mk "c" [] Option.none []),
         etreeBody (.mk "c" [("x", "1")] Option.none [])])])] ∧
    etree_to_dict (.mk "r" [] Option.none [.mk "c" [] Option.none []]) =
      .dict [("r", .dict [("c", etreeBody (.mk "c" [] Option.none []))])] ∧
    etree_to_dict (.mk "r" [("att", "v")] Option.none [.mk "c" [] Option.none []]) =
      .dict [("r", .dict [("c", etreeBody (.mk "c" [] Option.none [])),
                          ("att", .str "v")])] ∧
    etree_to_dict (.mk "r" [("att", "v")] (some " hi ") []) =
      .dict [("r", .dict [("att", .str "v"), ("#text", .str "hi")])] ∧
    etree_to_dict (.mk "r" [] (some " hi ") []) = .dict [("r", .str "hi")] := by
  refine ⟨?_, ?_, ?_, ?_, ?_⟩
  · exact c7_etree_flatten.1 "r" (.mk "c" [] Option.none [])
      (.mk "c" [("x", "1")] Option.none []) rfl
  · exact c7_etree_flatten.2.1 "r" (.mk "c" [] Option.none [])
  · exact c7_etree_flatten.2.2.1 "r" "att" "v" (.mk "c" [] Option.none []) (by decide)
  · exact c7_etree_flatten.2.2.2.1 "r" "att" "v" " hi " "hi" (by decide) (by decide)
      (by decide) (by decide)
  · exact c7_etree_flatten.2.2.2.2 "r" " hi " "hi" (by decide) (by decide)

/-! ## C8: the serialized trigger payload -/

set_option maxRecDepth 10000 in
/-- C8: with properties a=1 and b=2, branch release/1.0 and
configuration Cfg1, the serialized payload is exactly the build
element carrying the branch attribute, the buildType reference, and
the two property elements in mapping order. -/
theorem c8_trigger_payload :
    build_id_xml (.str "Cfg1") (.str "release/1.0") Val.none
        [("a", "1"), ("b", "2")] Val.none false =
      "<build branchName=\"release/1.0\">\n  <buildType id=\"Cfg1\"/>\n  <properties>\n    <property name=\"a\" value=\"1\"/>\n    <property name=\"b\" value=\"2\"/>\n  </properties>\n</build>" := by
  decide

/-! ## C9: selection of the base change id -/

/-- Inspection oracle for C9: a finished build with change ids 10, 2
and 30. -/
def inspC9 : Nat → Val := fun _ => mkSnap "bt" "br" "finished" ["10", "2", "30"]

/-- Trigger oracle for C9. -/
def trigC9 : Nat → Val := fun _ => .bool false

/-- C9: the base change handed to the Build Trigger is the maximum of
the change-id list under the implementation's ordering (Python string
comparison, lexicographic on code points): for ids 10, 2 and 30 it is
30; in general it is None for an empty list and the lexicographic
maximum otherwise, and a None change id emits no lastChanges block in
the payload. -/
theorem c9_change_selection :
    (trigger_build_with_same_revision inspC9 trigC9 (.str "B") Val.none true 120).resolvedChange =
      some (.str "30") ∧
    (∀ (inspect trigResp : Nat → Val) (ob btid0 : Val) (oif : Bool) (total : Nat)
        (bt br st : String) (ids : List String),
      pyTruthy ob = true → inspect 0 = mkSnap bt br st ids → st ≠ "running" →
      (trigger_build_with_same_revision inspect trigResp ob btid0 oif total).resolvedChange =
        some (maxIdVal ids)) ∧
    maxIdVal ["10", "2", "30"] = Val.str "30" ∧
    maxIdVal [] = Val.none ∧
    build_id_xml (.str "C") (.str "B") Val.none [] Val.none false =
      "<build branchName=\"B\">\n  <buildType id=\"C\"/>\n  <properties>\n  </properties>\n</build>" := by
  have hgen : ∀ (inspect trigResp : Nat → Val) (ob btid0 : Val) (oif : Bool)
      (total : Nat) (bt br st : String) (ids : List String),
      pyTruthy ob = true → inspect 0 = mkSnap bt br st ids → st ≠ "running" →
      (trigger_build_with_same_revision inspect trigResp ob btid0 oif total).resolvedChange =
        some (maxIdVal ids) := by
    intro inspect trigResp ob btid0 oif total bt br st ids hob hin hst
    have hloop := orchLoop_break inspect (if (!oif) = true then 1 else total)
      btid0 0 bt br st ids hin
      (by rintro ⟨hv, -⟩; simp [valEqStr] at hv; exact hst hv)
    have horch : trigger_build_with_same_revision inspect trigResp ob btid0 oif total =
        runTrigger trigResp (maxIdVal ids) 1 0 := by
      unfold trigger_build_with_same_revision
      rw [if_pos hob]
      dsimp only
      rw [hloop]
      dsimp only
      rw [if_neg (by rintro ⟨-, hv⟩; simp [valEqStr] at hv; exact hst hv)]
    rw [horch]
    exact (runTrigger_obs trigResp (maxIdVal ids) 1 0).2.2.2

  refine ⟨?_, hgen, rfl, rfl, by decide⟩
  have h := hgen inspC9 trigC9 (.str "B") Val.none true 120 "bt" "br" "finished"
    ["10", "2", "30"] rfl rfl (by decide)
  rw [h]
  rfl

/-- Inspection oracle for the C9 witness: a finished build with no
associated changes. -/
def inspC9E : Nat → Val := fun _ => mkSnap "bt" "br" "finished" []

theorem c9_change_selection_witness :
    (trigger_build_with_same_revision inspC9E trigC9 (.str "B") Val.none true 120).resolvedChange =
      some Val.none :=
  c9_change_selection.2.1 inspC9E trigC9 (.str "B") Val.none true 120
    "bt" "br" "finished" [] rfl rfl (by decide)

end TCRerun
